import Mathlib

/-!
Shallow embedding of the opencode-docker chat flow.

The definitions below are translated from the repository's TypeScript
sources:
* the browser chat view's SSE event handler
  (`www/apps/web/app/routes/chat.tsx`, `eventSource.onmessage`),
* the chat route's `loader` and `action` (same file),
* the server-side API client (`www/apps/web/app/lib/opencode-api.server.ts`),
* the tasks route's `loader` and the tasks API client
  (`app/routes/tasks.tsx`, `app/lib/api/tasks.server.ts`).

JavaScript `undefined`/absent optional values are modelled with `Option`;
JavaScript string truthiness (where the code relies on it, e.g. `delta &&`
and `title ||`) is modelled by an explicit emptiness test; thrown
`Error`s are modelled as `Except.error` carrying the error message string.
-/

namespace OC

/-- The `Message` interface of `opencode-types.ts`:
`{id, sessionID, role, createdAt}`. The role union type is modelled as a
string tag. -/
structure MessageInfo where
  id : String
  sessionID : String
  role : String
  createdAt : String
deriving DecidableEq

/-- The `Part` tagged union of `opencode-types.ts`: `TextPart {type:"text",
text}` or `ToolPart {type:"tool", name, input, output?}`. The `any`-typed
tool input/output are modelled as opaque strings. -/
inductive Part where
  | text (text : String)
  | tool (name : String) (input : String) (output : Option String)
deriving DecidableEq

/-- The JavaScript `type` discriminator field of a `Part`. -/
def Part.type : Part → String
  | .text _ => "text"
  | .tool _ _ _ => "tool"

/-- `MessageWithParts` of `opencode-types.ts`: `{info, parts}`. -/
structure MessageWithParts where
  info : MessageInfo
  parts : List Part
deriving DecidableEq

/-- `SessionStatus` of `opencode-types.ts`:
`{type ∈ {idle,busy,retry}, attempt?, message?, next?}`. -/
structure SessionStatus where
  type : String
  attempt : Option Nat
  message : Option String
  next : Option String
deriving DecidableEq

/-- A decoded SSE payload, as far as the handler in `chat.tsx` inspects it:
`data.payload.type` selects the constructor and `data.payload.properties`
carries the fields the handler destructures.  The handler's session filter
reads `data.payload?.properties?.info?.sessionID`; for `message.updated`
this is the `sessionID` of the carried `info`, for the other two event
kinds it is whatever (possibly absent) `info.sessionID` the frame carried,
modelled as the `Option String` first argument. -/
inductive Event where
  | messageUpdated (info : MessageInfo) (parts : Option (List Part))
  | messagePartUpdated (infoSessionID : Option String) (messageID : String)
      (part : Part) (delta : Option String)
  | sessionStatus (infoSessionID : Option String) (status : SessionStatus)
deriving DecidableEq

/-- The value of `data.payload?.properties?.info?.sessionID` for an event. -/
def Event.infoSessionID : Event → Option String
  | .messageUpdated info _ => some info.sessionID
  | .messagePartUpdated sid _ _ _ => sid
  | .sessionStatus sid _ => sid

/-- The chat view's local state: the `messages` list (`useState` of
`MessageWithParts[]`) and the `isStreaming` flag (`useState` of boolean). -/
structure ChatState where
  messages : List MessageWithParts
  isStreaming : Bool
deriving DecidableEq

/-- The body of `eventSource.onmessage` in `chat.tsx` (lines 118-173),
as a state transformer.  Guard first: any event whose
`properties.info?.sessionID` differs from the current session id is
dropped.  Then:
* `message.updated`: if a message with `info.id` exists, map over the list
  replacing its `info` and, when the event carried `parts`, its parts
  (`parts || m.parts`); otherwise append `{info, parts: parts || []}`.
* `message.part.updated`: map over the list; in the matching message find
  the first part with the incoming part's `type`.  If found, append the
  delta onto the text when `delta` is truthy (non-empty) and the found
  part is a text part, else keep the parts as they are; if no part of that
  type exists, append the incoming part.
* `session.status`: set `isStreaming` to `status.type === "busy"`. -/
def handleEvent (currentSessionId : String) (st : ChatState) (e : Event) :
    ChatState :=
  if e.infoSessionID ≠ some currentSessionId then st
  else
    match e with
    | .messageUpdated info parts =>
        if st.messages.any (fun m => m.info.id == info.id) then
          { st with messages := st.messages.map (fun m =>
              if m.info.id == info.id then
                { info := info, parts := parts.getD m.parts }
              else m) }
        else
          { st with messages :=
              st.messages ++ [{ info := info, parts := parts.getD [] }] }
    | .messagePartUpdated _ messageID part delta =>
        { st with messages := st.messages.map (fun m =>
            if m.info.id == messageID then
              match m.parts.findIdx? (fun p => p.type == part.type) with
              | some partIndex =>
                  { m with parts :=
                      match delta, m.parts[partIndex]? with
                      | some d, some (Part.text t) =>
                          if d = "" then m.parts
                          else m.parts.set partIndex (Part.text (t ++ d))
                      | _, _ => m.parts }
              | none => { m with parts := m.parts ++ [part] }
            else m) }
    | .sessionStatus _ status =>
        { st with isStreaming := status.type == "busy" }

/-! ### Server-side API client (`opencode-api.server.ts`) -/

/-- An outbound HTTP request as the client builds it: method, path, the
query parameters attached to the URL, and an optional body. -/
structure HttpRequest where
  method : String
  path : String
  query : List (String × String)
  body : Option String
deriving DecidableEq

/-- An HTTP response: status code and body text. -/
structure HttpResponse where
  status : Nat
  body : String
deriving DecidableEq

/-- JavaScript `response.ok`: status in the range 200-299. -/
def HttpResponse.ok (r : HttpResponse) : Bool :=
  200 ≤ r.status && r.status < 300

/-- `DEFAULT_DIRECTORY` of `opencode-api.server.ts`. -/
def DEFAULT_DIRECTORY : String := "/workspace"

/-- `opencodeRequest` of `opencode-api.server.ts`, parameterised over the
transport (`fetch`, modelled as a function from request to response).
It builds one request — the endpoint path with the `directory` query
parameter, defaulting to `DEFAULT_DIRECTORY` — and performs exactly the
fetches recorded in the second component of the result.  A non-ok
response throws `OpenCode API Error: ${status} - ${bodyText}`; an ok
response resolves to the response body (its JSON decoding is outside
this model). -/
def opencodeRequest (transport : HttpRequest → HttpResponse)
    (endpoint : String) (method : String) (reqBody : Option String)
    (directory : Option String) :
    Except String String × List HttpRequest :=
  let req : HttpRequest :=
    { method := method, path := endpoint,
      query := [("directory", directory.getD DEFAULT_DIRECTORY)],
      body := reqBody }
  let response := transport req
  (if response.ok then Except.ok response.body
   else Except.error
     ("OpenCode API Error: " ++ toString response.status ++ " - "
       ++ response.body),
   [req])

/-- `listSessions`: GET `/session`. -/
def listSessions (transport : HttpRequest → HttpResponse)
    (directory : Option String) : Except String String × List HttpRequest :=
  opencodeRequest transport "/session" "GET" none directory

/-- `createSession`: POST `/session` with the JSON-encoded request body. -/
def createSession (transport : HttpRequest → HttpResponse)
    (reqBody : String) (directory : Option String) :
    Except String String × List HttpRequest :=
  opencodeRequest transport "/session" "POST" (some reqBody) directory

/-- `listMessages`: GET `/session/{id}/message`.  The source declares a
`limit` parameter defaulting to 50, but the request it builds does not
use it. -/
def listMessages (transport : HttpRequest → HttpResponse)
    (sessionId : String) (limit : Nat) (directory : Option String) :
    Except String String × List HttpRequest :=
  opencodeRequest transport ("/session/" ++ sessionId ++ "/message")
    "GET" none directory

/-- The default value of the `limit` parameter of `listMessages`. -/
def listMessagesDefaultLimit : Nat := 50

/-- `sendMessage`: POST `/session/{id}/message` with the JSON-encoded
request body. -/
def sendMessage (transport : HttpRequest → HttpResponse)
    (sessionId : String) (reqBody : String) (directory : Option String) :
    Except String String × List HttpRequest :=
  opencodeRequest transport ("/session/" ++ sessionId ++ "/message")
    "POST" (some reqBody) directory

/-- `abortSession`: POST `/session/{id}/abort`, no body. -/
def abortSession (transport : HttpRequest → HttpResponse)
    (sessionId : String) (directory : Option String) :
    Except String String × List HttpRequest :=
  opencodeRequest transport ("/session/" ++ sessionId ++ "/abort")
    "POST" none directory

/-! ### Chat route loader and action (`chat.tsx`) -/

/-- The `Session` interface of `opencode-types.ts`. -/
structure Session where
  id : String
  title : String
  parentID : Option String
  createdAt : String
  updatedAt : String
deriving DecidableEq

/-- The data returned by the chat route `loader` (the `eventStreamUrl`
field, unused by any claim, is omitted). -/
structure ChatLoaderData where
  sessions : List Session
  currentSession : Option Session
  messages : List MessageWithParts
deriving DecidableEq

/-- The chat route `loader` (`chat.tsx` lines 21-47), parameterised over
the two API calls it awaits, each of which may throw
(`Except.error`).  There is no try/catch in this loader: a failure of
either call propagates out.  With no session id it returns the session
list alone; with one it also fetches that session's messages and resolves
the current session by `sessions.find`. -/
def chatLoader (apiListSessions : Except String (List Session))
    (apiListMessages : String → Except String (List MessageWithParts))
    (sessionId : Option String) : Except String ChatLoaderData :=
  match apiListSessions with
  | .error e => .error e
  | .ok sessions =>
    match sessionId with
    | none =>
        .ok { sessions := sessions, currentSession := none, messages := [] }
    | some sid =>
        match apiListMessages sid with
        | .error e => .error e
        | .ok messages =>
            .ok { sessions := sessions,
                  currentSession := sessions.find? (fun s => s.id == sid),
                  messages := messages }

/-- A task row as the tasks API client types it:
`{id: number, name: string, done: boolean}` (`tasks.server.ts`). -/
structure Task where
  id : Nat
  name : String
  done : Bool
deriving DecidableEq

/-- The tasks route `loader` (routes/tasks.tsx): wraps `getTasks` in
try/catch and degrades to `{tasks: []}` on failure. -/
def tasksLoader (apiGetTasks : Except String (List Task)) : List Task :=
  match apiGetTasks with
  | .ok tasks => tasks
  | .error _ => []

/-- The `Model` selector of `opencode-types.ts`. -/
structure Model where
  providerID : String
  modelID : String
deriving DecidableEq

/-- `SendMessageRequest` of `opencode-types.ts`, restricted to the fields
the chat action populates. -/
structure SendMessageRequest where
  model : Model
  agent : String
  parts : List Part
deriving DecidableEq

/-- The result payloads the chat `action` returns (the `type` tag of the
returned object selects the constructor). -/
inductive ChatActionResult where
  | sessionCreated (session : Session)
  | messageSent (message : MessageWithParts)
  | error (error : String)
  | aborted
  | unknown
deriving DecidableEq

/-- The chat route `action` (`chat.tsx` lines 49-90), parameterised over
the three API calls it can dispatch to.  Form data is a key/value list;
`formData.get` is `List.lookup`, and the `as string` casts on absent
fields are modelled as the empty string.  Only the `send-message` branch
is wrapped in try/catch (returning `{type:"error", error}`); a failure
thrown by `createSession` or `abortSession` propagates out of the
action. -/
def chatAction
    (apiCreateSession : String → Except String Session)
    (apiSendMessage :
      String → SendMessageRequest → Except String MessageWithParts)
    (apiAbortSession : String → Except String Unit)
    (form : List (String × String)) : Except String ChatActionResult :=
  let intent := form.lookup "intent"
  if intent = some "create-session" then
    let title := (form.lookup "title").getD ""
    match apiCreateSession (if title = "" then "New Chat" else title) with
    | .ok session => .ok (.sessionCreated session)
    | .error e => .error e
  else if intent = some "send-message" then
    let sessionId := (form.lookup "sessionId").getD ""
    let message := (form.lookup "message").getD ""
    match apiSendMessage sessionId
        { model := { providerID := "anthropic",
                     modelID := "claude-haiku-4-5-20251001" },
          agent := "build",
          parts := [Part.text message] } with
    | .ok response => .ok (.messageSent response)
    | .error e => .ok (.error e)
  else if intent = some "abort" then
    let sessionId := (form.lookup "sessionId").getD ""
    match apiAbortSession sessionId with
    | .ok _ => .ok .aborted
    | .error e => .error e
  else .ok .unknown

/-! ### Theorems -/

/-- Unfolding of `handleEvent` on a `message.updated` event that passes
the session filter. -/
theorem handleEvent_messageUpdated_eq (cur : String) (st : ChatState)
    (info : MessageInfo) (pp : Option (List Part))
    (h : info.sessionID = cur) :
    handleEvent cur st (Event.messageUpdated info pp)
      = if st.messages.any (fun m => m.info.id == info.id) then
          { st with messages := st.messages.map (fun m =>
              if m.info.id == info.id then
                { info := info, parts := pp.getD m.parts }
              else m) }
        else
          { st with messages :=
              st.messages ++ [{ info := info, parts := pp.getD [] }] } := by
  have hne : ¬((Event.messageUpdated info pp).infoSessionID ≠ some cur) := by
    simp [Event.infoSessionID, h]
  unfold handleEvent
  rw [if_neg hne]

/-- Unfolding of `handleEvent` on a `message.part.updated` event that
passes the session filter. -/
theorem handleEvent_messagePartUpdated_eq (cur mid : String)
    (st : ChatState) (part : Part) (delta : Option String) :
    handleEvent cur st (Event.messagePartUpdated (some cur) mid part delta)
      = { st with messages := st.messages.map (fun m =>
          if m.info.id == mid then
            match m.parts.findIdx? (fun p => p.type == part.type) with
            | some partIndex =>
                { m with parts :=
                    match delta, m.parts[partIndex]? with
                    | some d, some (Part.text t) =>
                        if d = "" then m.parts
                        else m.parts.set partIndex (Part.text (t ++ d))
                    | _, _ => m.parts }
            | none => { m with parts := m.parts ++ [part] }
          else m) } := by
  have hne :
      ¬((Event.messagePartUpdated (some cur) mid part delta).infoSessionID
          ≠ some cur) := by
    simp [Event.infoSessionID]
  unfold handleEvent
  rw [if_neg hne]

/-- Claim C2: a `message.updated` event for the open session upserts by
message id — if a message with `info.id` exists, its `info` is replaced
and its parts are replaced exactly when the event carried a parts array
(kept otherwise), every other message being untouched; if none exists, a
new record is appended with parts defaulting to the empty list. -/
theorem messageUpdated_upsert (cur : String) (st : ChatState)
    (info : MessageInfo) (pp : Option (List Part))
    (hsid : info.sessionID = cur) :
    (st.messages.any (fun m => m.info.id == info.id) = true →
      (handleEvent cur st (Event.messageUpdated info pp)).isStreaming
          = st.isStreaming ∧
      (handleEvent cur st (Event.messageUpdated info pp)).messages.length
          = st.messages.length ∧
      ∀ (k : Nat) (m : MessageWithParts), st.messages[k]? = some m →
        (m.info.id = info.id →
          (handleEvent cur st (Event.messageUpdated info pp)).messages[k]?
            = some { info := info, parts := pp.getD m.parts }) ∧
        (m.info.id ≠ info.id →
          (handleEvent cur st (Event.messageUpdated info pp)).messages[k]?
            = some m)) ∧
    (st.messages.any (fun m => m.info.id == info.id) = false →
      (handleEvent cur st (Event.messageUpdated info pp)).messages
          = st.messages ++ [{ info := info, parts := pp.getD [] }] ∧
      (handleEvent cur st (Event.messageUpdated info pp)).isStreaming
          = st.isStreaming) := by
  rw [handleEvent_messageUpdated_eq cur st info pp hsid]
  constructor
  · intro hex
    rw [if_pos hex]
    refine ⟨rfl, by simp, ?_⟩
    intro k m hk
    constructor
    · intro hid
      have hb : (m.info.id == info.id) = true := beq_iff_eq.mpr hid
      simp only [List.getElem?_map, hk, Option.map_some', hb, if_true]
    · intro hid
      have hb : ¬((m.info.id == info.id) = true) := by simp [hid]
      simp only [List.getElem?_map, hk, Option.map_some', if_neg hb]
  · intro hex
    have hne : ¬(st.messages.any (fun m => m.info.id == info.id) = true) := by
      simp [hex]
    rw [if_neg hne]
    exact ⟨rfl, rfl⟩

/-- Witness for claim C2 at a concrete input (spec scenario 5): a
`message.updated` event for a fresh id "m1" on an empty list appends the
new message with its carried parts. -/
theorem messageUpdated_upsert_witness :
    (handleEvent "s1" { messages := [], isStreaming := false }
      (Event.messageUpdated
        { id := "m1", sessionID := "s1", role := "assistant",
          createdAt := "t1" }
        (some [Part.text "Hello"]))).messages
      = [{ info := { id := "m1", sessionID := "s1", role := "assistant",
                     createdAt := "t1" },
           parts := [Part.text "Hello"] }] := by
  have h := messageUpdated_upsert "s1"
    { messages := [], isStreaming := false }
    { id := "m1", sessionID := "s1", role := "assistant",
      createdAt := "t1" }
    (some [Part.text "Hello"]) rfl
  have h2 := h.2 rfl
  simpa using h2.1

/-- Claim C1: a `message.part.updated` event for the open session that
carries a delta string, whose message id names the (unique) existing
message containing a text part of the incoming (text) type, extends that
part's text by exactly the delta; every other part of that message and
every other message — and the generating flag — are unchanged. -/
theorem partUpdate_delta_appends (cur mid s d t : String) (st : ChatState)
    (i j : Nat) (m : MessageWithParts)
    (hm : st.messages[i]? = some m)
    (hid : m.info.id = mid)
    (huniq : ∀ (k : Nat) (m2 : MessageWithParts),
      st.messages[k]? = some m2 → k ≠ i → m2.info.id ≠ mid)
    (hfind : m.parts.findIdx? (fun p => p.type == "text") = some j)
    (ht : m.parts[j]? = some (Part.text t)) :
    (handleEvent cur st (Event.messagePartUpdated (some cur) mid
        (Part.text s) (some d))).isStreaming = st.isStreaming ∧
    (handleEvent cur st (Event.messagePartUpdated (some cur) mid
        (Part.text s) (some d))).messages.length = st.messages.length ∧
    (∀ k : Nat, k ≠ i →
      (handleEvent cur st (Event.messagePartUpdated (some cur) mid
          (Part.text s) (some d))).messages[k]? = st.messages[k]?) ∧
    ∃ mres : MessageWithParts,
      (handleEvent cur st (Event.messagePartUpdated (some cur) mid
          (Part.text s) (some d))).messages[i]? = some mres ∧
      mres.info = m.info ∧
      mres.parts.length = m.parts.length ∧
      mres.parts[j]? = some (Part.text (t ++ d)) ∧
      ∀ l : Nat, l ≠ j → mres.parts[l]? = m.parts[l]? := by
  have hj : j < m.parts.length := by
    rcases List.getElem?_eq_some_iff.mp ht with ⟨h, _⟩
    exact h
  rw [handleEvent_messagePartUpdated_eq]
  have hb : (m.info.id == mid) = true := beq_iff_eq.mpr hid
  have hfind2 :
      m.parts.findIdx? (fun p => p.type == (Part.text s).type) = some j := by
    simpa [Part.type] using hfind
  refine ⟨rfl, by simp, ?_, ?_⟩
  · intro k hki
    simp only [List.getElem?_map]
    cases hk : st.messages[k]? with
    | none => rfl
    | some m2 =>
      have hne : m2.info.id ≠ mid := huniq k m2 hk hki
      have hb2 : ¬((m2.info.id == mid) = true) := by simp [hne]
      simp only [hk, Option.map_some', if_neg hb2]
  · simp only [List.getElem?_map, hm, Option.map_some', hb, if_true,
      hfind2, ht]
    by_cases hd : d = ""
    · subst hd
      refine ⟨m, by simp, rfl, rfl, ?_, fun l _ => rfl⟩
      rw [ht, String.append_empty]
    · refine ⟨{ info := m.info,
                parts := m.parts.set j (Part.text (t ++ d)) },
        by simp [hd], rfl, by simp, ?_, ?_⟩
      · simp [List.getElem?_set_self hj]
      · intro l hl
        simp [List.getElem?_set_ne (fun h => hl h.symm)]

/-- Witness for claim C1 at a concrete input (spec scenario 6): message
"m1" holds the text part "Hel"; the event carries part `{type:"text",
text:"Hel"}` with delta "lo"; the resulting text is "Hello". -/
theorem partUpdate_delta_appends_witness :
    ∃ mres : MessageWithParts,
      (handleEvent "s1"
        { messages := [{ info := { id := "m1", sessionID := "s1",
                                   role := "assistant", createdAt := "t1" },
                         parts := [Part.text "Hel"] }],
          isStreaming := false }
        (Event.messagePartUpdated (some "s1") "m1" (Part.text "Hel")
          (some "lo"))).messages[0]? = some mres ∧
      mres.parts[0]? = some (Part.text "Hello") := by
  have h := partUpdate_delta_appends "s1" "m1" "Hel" "lo" "Hel"
    { messages := [{ info := { id := "m1", sessionID := "s1",
                               role := "assistant", createdAt := "t1" },
                     parts := [Part.text "Hel"] }],
      isStreaming := false }
    0 0
    { info := { id := "m1", sessionID := "s1", role := "assistant",
                createdAt := "t1" },
      parts := [Part.text "Hel"] }
    rfl rfl
    (by
      intro k m2 hk hki
      cases k with
      | zero => exact absurd rfl hki
      | succ n => simp at hk)
    (by decide) rfl
  rcases h.2.2.2 with ⟨mres, h1, _, _, h4, _⟩
  exact ⟨mres, h1, h4⟩

/-- Counterexample to claim C4 as stated: a `message.part.updated` event
with no delta whose incoming part's type matches an existing (tool) part
leaves the existing part in place — it is not replaced by the incoming
part (the two parts differ). -/
theorem partUpdate_replace_refuted :
    ((handleEvent "s1"
      { messages := [{ info := { id := "m1", sessionID := "s1",
                                 role := "assistant", createdAt := "t1" },
                       parts := [Part.tool "bash" "ls" none] }],
        isStreaming := false }
      (Event.messagePartUpdated (some "s1") "m1"
        (Part.tool "grep" "foo" none) none)).messages
      = [{ info := { id := "m1", sessionID := "s1",
                     role := "assistant", createdAt := "t1" },
           parts := [Part.tool "bash" "ls" none] }]) ∧
    Part.tool "bash" "ls" none ≠ Part.tool "grep" "foo" none := by
  decide

/-- Claim C4 as amended: for a `message.part.updated` event for the open
session whose message contains a part of the incoming part's type, when
no (non-empty) delta string is present or that part is not a text part,
the message is left entirely unchanged (the incoming part is discarded,
not substituted); and when the message contains no part of the incoming
type, the incoming part is appended.  Messages with other ids are
untouched. -/
theorem partUpdate_replace_or_append (cur mid : String) (part : Part)
    (delta : Option String) (st : ChatState) :
    (handleEvent cur st
        (Event.messagePartUpdated (some cur) mid part delta)).isStreaming
      = st.isStreaming ∧
    (handleEvent cur st
        (Event.messagePartUpdated (some cur) mid part delta)).messages.length
      = st.messages.length ∧
    ∀ (k : Nat) (m : MessageWithParts), st.messages[k]? = some m →
      (m.info.id ≠ mid →
        (handleEvent cur st
            (Event.messagePartUpdated (some cur) mid part delta)).messages[k]?
          = some m) ∧
      (m.info.id = mid →
        (m.parts.findIdx? (fun p => p.type == part.type) = none →
          (handleEvent cur st
              (Event.messagePartUpdated (some cur) mid part delta)).messages[k]?
            = some { info := m.info, parts := m.parts ++ [part] }) ∧
        ∀ idx : Nat,
          m.parts.findIdx? (fun p => p.type == part.type) = some idx →
          (delta = none ∨ delta = some ""
            ∨ ∀ t : String, m.parts[idx]? ≠ some (Part.text t)) →
          (handleEvent cur st
              (Event.messagePartUpdated (some cur) mid part delta)).messages[k]?
            = some m) := by
  rw [handleEvent_messagePartUpdated_eq]
  refine ⟨rfl, by simp, ?_⟩
  intro k m hk
  constructor
  · intro hid
    have hb : ¬((m.info.id == mid) = true) := by simp [hid]
    simp only [List.getElem?_map, hk, Option.map_some', if_neg hb]
  · intro hid
    have hb : (m.info.id == mid) = true := beq_iff_eq.mpr hid
    constructor
    · intro hnone
      simp only [List.getElem?_map, hk, Option.map_some', hb, if_true,
        hnone]
    · intro idx hidx hcond
      simp only [List.getElem?_map, hk, Option.map_some', hb, if_true,
        hidx]
      rcases hcond with h1 | h1 | h1
      · subst h1
        cases hp : m.parts[idx]? with
        | none => simp
        | some p => cases p <;> simp
      · subst h1
        cases hp : m.parts[idx]? with
        | none => simp
        | some p => cases p <;> simp [hp]
      · cases hp : m.parts[idx]? with
        | none => cases delta <;> simp
        | some p =>
          cases p with
          | text t => exact absurd hp (h1 t)
          | tool n i o => cases delta <;> simp [hp]

/-- Witness for the amended claim C4 at a concrete input: the no-delta
tool-part event of the counterexample leaves the message unchanged, and
an event whose part type has no match is appended. -/
theorem partUpdate_replace_or_append_witness :
    (handleEvent "s1"
      { messages := [{ info := { id := "m1", sessionID := "s1",
                                 role := "assistant", createdAt := "t1" },
                       parts := [Part.tool "bash" "ls" none] }],
        isStreaming := false }
      (Event.messagePartUpdated (some "s1") "m1"
        (Part.tool "grep" "foo" none) none)).messages[0]?
      = some { info := { id := "m1", sessionID := "s1",
                         role := "assistant", createdAt := "t1" },
               parts := [Part.tool "bash" "ls" none] } := by
  have h := partUpdate_replace_or_append "s1" "m1"
    (Part.tool "grep" "foo" none) none
    { messages := [{ info := { id := "m1", sessionID := "s1",
                               role := "assistant", createdAt := "t1" },
                     parts := [Part.tool "bash" "ls" none] }],
      isStreaming := false }
  have h2 := (h.2.2 0
    { info := { id := "m1", sessionID := "s1",
                role := "assistant", createdAt := "t1" },
      parts := [Part.tool "bash" "ls" none] } rfl).2 rfl
  exact h2.2 0 (by decide) (Or.inl rfl)

/-- Claim C3: a `session.status` event for the currently open session sets
the generating (`isStreaming`) flag to true exactly when the event's
`status.type` equals `"busy"`, and to false for every other status type,
irrespective of the prior flag value; the message list is untouched. -/
theorem sessionStatus_sets_generating (cur : String) (st : ChatState)
    (status : SessionStatus) :
    ((handleEvent cur st (Event.sessionStatus (some cur) status)).isStreaming
        = true ↔ status.type = "busy") ∧
    (handleEvent cur st (Event.sessionStatus (some cur) status)).messages
        = st.messages := by
  unfold handleEvent
  simp [Event.infoSessionID]

/-- Claim C5: an SSE event whose embedded session id
(`properties.info?.sessionID`) differs from the currently open session id
leaves the whole view state unchanged. -/
theorem foreignSession_noop (cur : String) (st : ChatState) (e : Event)
    (h : e.infoSessionID ≠ some cur) :
    handleEvent cur st e = st := by
  unfold handleEvent
  rw [if_pos h]

/-- Witness for claim C5 at a concrete input: a `session.status` event for
session "s2" received while session "s1" is open changes nothing. -/
theorem foreignSession_noop_witness :
    handleEvent "s1" { messages := [], isStreaming := true }
      (Event.sessionStatus (some "s2")
        { type := "busy", attempt := none, message := none, next := none })
      = { messages := [], isStreaming := true } :=
  foreignSession_noop "s1"
    { messages := [], isStreaming := true }
    (Event.sessionStatus (some "s2")
      { type := "busy", attempt := none, message := none, next := none })
    (by decide)

/-- Claim C10: no SSE event ever removes a message — for every event and
every prior state, the resulting message-id sequence extends the prior one
(so ids and relative order of existing messages are preserved) and the
list length is non-decreasing. -/
theorem handleEvent_never_removes (cur : String) (st : ChatState)
    (e : Event) :
    ∃ suffix,
      (handleEvent cur st e).messages.map (fun m => m.info.id)
        = st.messages.map (fun m => m.info.id) ++ suffix ∧
      st.messages.length ≤ (handleEvent cur st e).messages.length := by
  unfold handleEvent
  by_cases h : e.infoSessionID ≠ some cur
  · rw [if_pos h]
    exact ⟨[], by simp, le_refl _⟩
  · rw [if_neg h]
    cases e with
    | messageUpdated info parts =>
      by_cases hex : st.messages.any (fun m => m.info.id == info.id)
      · simp only [hex, if_true]
        refine ⟨[], ?_, by simp⟩
        simp only [List.append_nil, List.map_map]
        apply List.map_congr_left
        intro m _
        by_cases hid : m.info.id == info.id
        · simp only [Function.comp, hid, if_true]
          exact (eq_of_beq hid).symm
        · simp [Function.comp, hid]
      · simp only [hex, if_false]
        exact ⟨[info.id], by simp, by simp⟩
    | messagePartUpdated sid messageID part delta =>
      refine ⟨[], ?_, by simp⟩
      simp only [List.append_nil, List.map_map]
      apply List.map_congr_left
      intro m _
      by_cases hid : m.info.id == messageID
      · simp only [Function.comp, hid, if_true]
        cases hf : m.parts.findIdx? (fun p => p.type == part.type) <;> simp
      · simp [Function.comp, hid]
    | sessionStatus sid status =>
      exact ⟨[], by simp, le_refl _⟩

/-- Claim C6: every API-client operation funnels through
`opencodeRequest`, which performs exactly one fetch; a non-2xx response
surfaces as a thrown failure whose message carries the HTTP status code
and the response body text, with no retry (a 2xx response resolves to the
body).  The remaining conjuncts record that each exported operation
issues exactly one request. -/
theorem opencodeRequest_contract (transport : HttpRequest → HttpResponse)
    (endpoint method : String) (reqBody directory : Option String)
    (sid reqBody2 : String) :
    (∃ req : HttpRequest,
      opencodeRequest transport endpoint method reqBody directory
        = (if (transport req).ok then Except.ok (transport req).body
           else Except.error
             ("OpenCode API Error: " ++ toString (transport req).status
               ++ " - " ++ (transport req).body),
           [req])) ∧
    (listSessions transport directory).2.length = 1 ∧
    (createSession transport reqBody2 directory).2.length = 1 ∧
    (listMessages transport sid listMessagesDefaultLimit directory).2.length
      = 1 ∧
    (sendMessage transport sid reqBody2 directory).2.length = 1 ∧
    (abortSession transport sid directory).2.length = 1 := by
  constructor
  · exact ⟨HttpRequest.mk method endpoint
      [("directory", directory.getD DEFAULT_DIRECTORY)] reqBody, by rfl⟩
  · refine ⟨?_, ?_, ?_, ?_, ?_⟩ <;> rfl

/-- Claim C7 (code bug): `listMessages` declares a `limit` parameter
defaulting to 50 but never transmits it — the single request it issues is
identical for every limit value and carries no `limit` query parameter,
so the fetch is unbounded. -/
theorem listMessages_ignores_limit (transport : HttpRequest → HttpResponse)
    (sid : String) (limit : Nat) (directory : Option String) :
    listMessages transport sid limit directory
      = listMessages transport sid listMessagesDefaultLimit directory ∧
    (listMessages transport sid limit directory).2.map
        (fun r => r.query.lookup "limit") = [none] ∧
    (listMessages transport sid limit directory).2.map (fun r => r.query)
      = [[("directory", directory.getD DEFAULT_DIRECTORY)]] := by
  refine ⟨?_, ?_, ?_⟩ <;> rfl

/-- Counterexample to claim C8 as stated: a failing `listSessions` call
propagates out of the chat route loader instead of degrading to an empty
result. -/
theorem chatLoader_uncaught_failure :
    chatLoader (Except.error "OpenCode API Error: 500 - boom")
      (fun _ => Except.ok []) none
      = Except.error "OpenCode API Error: 500 - boom" := rfl

/-- Claim C8 as amended: the tasks route loader catches API-client
failures and degrades to an empty task list, but the chat route loader
has no such boundary — a failure from `listSessions` or `listMessages`
propagates out of the loader unchanged. -/
theorem loader_failure_policy (e failMsg : String)
    (apiListMessages : String → Except String (List MessageWithParts))
    (sessionId : Option String) (sessions : List Session) (sid : String) :
    tasksLoader (Except.error e) = [] ∧
    chatLoader (Except.error e) apiListMessages sessionId = Except.error e ∧
    chatLoader (Except.ok sessions) (fun _ => Except.error failMsg)
      (some sid) = Except.error failMsg :=
  ⟨rfl, rfl, rfl⟩

/-- Counterexample to claim C9 as stated: a failure thrown by
`abortSession` under the `abort` intent propagates out of the chat action
instead of being returned as a structured result payload. -/
theorem chatAction_abort_uncaught :
    chatAction
      (fun _ => Except.error "unused")
      (fun _ _ => Except.error "unused")
      (fun _ => Except.error "OpenCode API Error: 404 - session not found")
      [("intent", "abort"), ("sessionId", "s1")]
      = Except.error "OpenCode API Error: 404 - session not found" := rfl

/-- Claim C9 as amended: only the `send-message` branch of the chat
action catches API-client failures (returning them as a structured
`error` payload carrying the failure's message); failures under the
`create-session` and `abort` intents propagate past the action
boundary. -/
theorem chatAction_failure_policy
    (apiCreateSession : String → Except String Session)
    (apiSendMessage :
      String → SendMessageRequest → Except String MessageWithParts)
    (apiAbortSession : String → Except String Unit)
    (e sid msg title : String) :
    chatAction apiCreateSession (fun _ _ => Except.error e) apiAbortSession
      [("intent", "send-message"), ("sessionId", sid), ("message", msg)]
      = Except.ok (ChatActionResult.error e) ∧
    chatAction apiCreateSession apiSendMessage (fun _ => Except.error e)
      [("intent", "abort"), ("sessionId", sid)]
      = Except.error e ∧
    chatAction (fun _ => Except.error e) apiSendMessage apiAbortSession
      [("intent", "create-session"), ("title", title)]
      = Except.error e :=
  ⟨rfl, rfl, rfl⟩

end OC
